import Mathlib

/-!
Shallow embedding of the audit orchestration engine of the site-auditor
repository (audit.go variant in src/unnamed/part_019, helpers in
src/utils.go), together with proofs of the frozen claims about it.

Browser effects (chromedp round trips, JS evaluation, timers) are modelled
as explicit environment records: every fallible browser call is a slot in
the environment holding either its error or its produced value, and the
pipeline is a pure function of the site, the configuration and that
environment, mirroring the Go control flow statement by statement.
-/

set_option maxRecDepth 8192
set_option maxHeartbeats 1000000

namespace SiteAuditor

/-! ## Go string helpers

Go's `strings` functions are modelled on `List Char` so that every
definition reduces by `rfl`/`decide`.  `Char.toLower` only folds ASCII
letters, which is enough for the ASCII resource patterns and header names
appearing in this program.
-/

/-- Model of `strings.HasPrefix`: `listStartsWith s pat` is true when `pat`
is an initial segment of `s`. -/
def listStartsWith : List Char → List Char → Bool
  | _, [] => true
  | [], _ :: _ => false
  | c :: cs, p :: ps => c == p && listStartsWith cs ps

/-- Model of `strings.Contains` on char lists: does `pat` occur as a
contiguous run inside the second list? -/
def listHasSub (pat : List Char) : List Char → Bool
  | [] => pat.isEmpty
  | c :: rest => listStartsWith (c :: rest) pat || listHasSub pat rest

/-- Model of `strings.HasPrefix` on `String`. -/
def goStartsWith (s pat : String) : Bool :=
  listStartsWith s.data pat.data

/-- Model of `strings.Contains` on `String`. -/
def goContains (s pat : String) : Bool :=
  listHasSub pat.data s.data

/-- Model of `strings.ToLower` (ASCII fold, via `Char.toLower`). -/
def goToLower (s : String) : String :=
  String.mk (s.data.map Char.toLower)

/-- Model of `strings.EqualFold` (ASCII case-insensitive equality), used by
`checkSecurityHeaders`. -/
def goEqualFold (s t : String) : Bool :=
  goToLower s == goToLower t

/-- Drops leading whitespace characters from a char list. -/
def dropLeadingSpace : List Char → List Char
  | [] => []
  | c :: rest => if c.isWhitespace then dropLeadingSpace rest else c :: rest

/-- Model of `strings.TrimSpace`: drop whitespace from both ends. -/
def goTrimSpace (s : String) : String :=
  String.mk ((dropLeadingSpace (dropLeadingSpace s.data.reverse).reverse))

/-- Helper for `goSplitComma`: accumulates the current field (reversed). -/
def splitCommaAux : List Char → List Char → List String
  | [], acc => [String.mk acc.reverse]
  | c :: rest, acc =>
    if c == ',' then String.mk acc.reverse :: splitCommaAux rest []
    else splitCommaAux rest (c :: acc)

/-- Model of `strings.SplitSeq(s, ",")` as used by
`parseAndValidateChecks`: split on every comma, keeping empty fields. -/
def goSplitComma (s : String) : List String :=
  splitCommaAux s.data []

/-! ## Resource-pattern filter (src/utils.go) -/

/-- Translation of `isIgnoredResource` (src/utils.go): true for `blob:` and
`data:` URIs and for any resource containing one of the ignored patterns. -/
def isIgnoredResource (resource : String) (ignoredPatterns : List String) : Bool :=
  goStartsWith resource "blob:" ||
  goStartsWith resource "data:" ||
  ignoredPatterns.any (fun pattern => goContains resource pattern)

/-- Translation of `ignoredIdlePatterns` (src/unnamed/part_019): patterns
ignored during the network-idle check. -/
def ignoredIdlePatterns : List String :=
  ["google-analytics.com", "googletagmanager.com", "doubleclick.net",
   "facebook.net", "hotjar.com", "favicon.ico", "google.com/gen_204",
   "amazon-adsystem.com", "googlesyndication.com", "adsystem.amazon",
   "facebook.com/tr", "linkedin.com/px", "twitter.com/i/adsct",
   "pinterest.com/ct", "tiktok.com/i18n", "snapchat.com/p",
   "scorecardresearch.com", "newrelic.com", "cloudflareinsights.com",
   "segment.io", "sentry.io", "monorail-edge.shopify.com",
   "shopifycloud.com", "intercom.io", "zendesk.com", "drift.com",
   "crisp.chat", "tawk.to", "livechat.com", "freshchat.com",
   "helpscout.net", "olark.com", "liveperson.net", "pusher.com",
   "analytics", "telemetry"]

/-! ## Data model (src/unnamed/part_019, src/unnamed/part_004) -/

/-- Translation of the `website` struct: lowercased domain, scheme and the
original URL. -/
structure website where
  originalURL : String
  scheme : String
  domain : String
deriving Repr, DecidableEq

/-- Translation of `auditCheck[T]`: an enabled flag paired with a typed
result slot. -/
structure auditCheck (T : Type) where
  enabled : Bool
  result : T
deriving Repr, DecidableEq

/-- Translation of `auditChecks`: the nine check slots.  Go's `float64` LCP
value is modelled as `Rat`. -/
structure auditChecks where
  secure : auditCheck Bool
  lcp : auditCheck Rat
  consoleErrs : auditCheck (List String)
  requestErrs : auditCheck (List String)
  missingHeaders : auditCheck (List String)
  responsiveIssues : auditCheck (List String)
  formIssues : auditCheck (List String)
  techStack : auditCheck (List String)
  screenshot : auditCheck Bool
deriving Repr, DecidableEq

/-- Go zero value of `auditChecks`: everything disabled, every result slot
at its zero value (false, 0, nil). -/
def emptyAuditChecks : auditChecks :=
  { secure := ⟨false, false⟩
    lcp := ⟨false, 0⟩
    consoleErrs := ⟨false, []⟩
    requestErrs := ⟨false, []⟩
    missingHeaders := ⟨false, []⟩
    responsiveIssues := ⟨false, []⟩
    formIssues := ⟨false, []⟩
    techStack := ⟨false, []⟩
    screenshot := ⟨false, false⟩ }

/-- Translation of the `audit` struct. -/
structure audit where
  checksStr : String
  checks : auditChecks
  important : Bool
  screenshotDir : String
deriving Repr, DecidableEq

/-- Translation of the `auditResult` struct. -/
structure auditResult where
  website : String
  checks : auditChecks
  auditErrs : List String
deriving Repr, DecidableEq

/-! ## Check selection (parseAndValidateChecks, src/unnamed/part_019) -/

/-- Translation of the important-checks branch of `parseAndValidateChecks`:
`secure`, `responsiveIssues`, `formIssues` and `techStack` enabled, all
other fields at their zero value. -/
def importantAuditChecks : auditChecks :=
  { emptyAuditChecks with
    secure.enabled := true
    responsiveIssues.enabled := true
    formIssues.enabled := true
    techStack.enabled := true }

/-- Translation of the all-checks branch of `parseAndValidateChecks`: every
check enabled, every result slot at its zero value. -/
def allAuditChecks : auditChecks :=
  { secure := ⟨true, false⟩
    lcp := ⟨true, 0⟩
    consoleErrs := ⟨true, []⟩
    requestErrs := ⟨true, []⟩
    missingHeaders := ⟨true, []⟩
    responsiveIssues := ⟨true, []⟩
    formIssues := ⟨true, []⟩
    techStack := ⟨true, []⟩
    screenshot := ⟨true, false⟩ }

/-- Translation of the `switch check` body inside `parseAndValidateChecks`:
enable the named check, or fail on an unknown name. -/
def enableCheck (c : auditChecks) (check : String) : Except String auditChecks :=
  if check = "security" then .ok { c with secure.enabled := true }
  else if check = "lcp" then .ok { c with lcp.enabled := true }
  else if check = "console" then .ok { c with consoleErrs.enabled := true }
  else if check = "request" then .ok { c with requestErrs.enabled := true }
  else if check = "headers" then .ok { c with missingHeaders.enabled := true }
  else if check = "mobile" then .ok { c with responsiveIssues.enabled := true }
  else if check = "form" then .ok { c with formIssues.enabled := true }
  else if check = "tech" then .ok { c with techStack.enabled := true }
  else if check = "screenshot" then .ok { c with screenshot.enabled := true }
  else .error ("unknown check: " ++ check)

/-- Translation of the `for check := range strings.SplitSeq(...)` loop of
`parseAndValidateChecks`: trim each name and enable it, stopping at the
first unknown name. -/
def enableChecksList (c : auditChecks) : List String → Except String auditChecks
  | [] => .ok c
  | n :: ns =>
    match enableCheck c (goTrimSpace n) with
    | .error e => .error e
    | .ok c2 => enableChecksList c2 ns

/-- Translation of `audit.parseAndValidateChecks` (src/unnamed/part_019):
rejects `important` combined with an explicit list, returns the important
preset or the all-enabled set, or enables the comma-separated names. -/
def parseAndValidateChecks (important : Bool) (checksStr : String) :
    Except String auditChecks :=
  if important && checksStr != "" then .error "important checks are predefined"
  else if important then .ok importantAuditChecks
  else if checksStr == "" then .ok allAuditChecks
  else enableChecksList emptyAuditChecks (goSplitComma checksStr)

/-! ## Security headers (audit.checkSecurityHeaders) -/

/-- Translation of the `securityHeaders` list inside
`audit.checkSecurityHeaders`. -/
def securityHeaders : List String :=
  ["Content-Security-Policy",
   "Strict-Transport-Security",
   "X-Content-Type-Options",
   "X-Frame-Options",
   "Permissions-Policy",
   "Referrer-Policy"]

/-- Translation of `audit.checkSecurityHeaders` (src/unnamed/part_019): the
response header map is modelled by its list of keys; for each required
header, scan the keys with `strings.EqualFold` and record it when absent. -/
def checkSecurityHeaders (resHeaders : List String) : List String :=
  securityHeaders.foldl
    (fun missingHeaders header =>
      if resHeaders.any (fun key => goEqualFold key header) then missingHeaders
      else missingHeaders ++ [header])
    []

/-! ## Browser environment

Each fallible chromedp call of `runSingle`/`run` is one slot below: `none`
or `.ok` means the call succeeded (with the produced value), `some e` or
`.error e` means it failed with error text `e`.
-/

/-- Model of a Go error value as observed by `runSingle`: either
`context.DeadlineExceeded` or some other error with its message.  Only the
idle-wait error is ever tested with `errors.Is(err,
context.DeadlineExceeded)`, so only that distinction is tracked. -/
inductive GoErr where
  | deadlineExceeded
  | msg (s : String)
deriving Repr, DecidableEq

/-- Model of `errors.Is(err, context.DeadlineExceeded)`. -/
def GoErr.isDeadlineExceeded : GoErr → Bool
  | .deadlineExceeded => true
  | .msg _ => false

/-- Model of `err.Error()`. -/
def GoErr.message : GoErr → String
  | .deadlineExceeded => "context deadline exceeded"
  | .msg s => s

/-- The part of the main-document response that `runSingle` reads from
`chromedp.RunResponse`: HTTP status and the response header names. -/
structure NavResp where
  status : Nat
  headers : List String
deriving Repr, DecidableEq

/-- Outcomes of the browser calls made while navigating one URL and waiting
for it to settle (the `chromedp.RunResponse` block of `runSingle`). -/
structure NavEnv where
  navigateErr : Option String
  waitReadyErr : Option String
  idleErr : Option GoErr
  settleSleepErr : Option String
  resp : NavResp
deriving Repr, DecidableEq

/-- Outcomes of every browser interaction of one `runSingle` call.  `nav`
is indexed by the navigated URL, so the pipeline observes the response of
exactly the URL it builds. -/
structure PageEnv where
  blankNavErr : Option String
  blankSleepErr : Option String
  pageEnableErr : Option String
  lcpInjectErr : Option String
  errInjectErr : Option String
  emulateErr : Option String
  networkEnableErr : Option String
  clearCacheErr : Option String
  clearCookiesErr : Option String
  nav : String → NavEnv
  secureEval : Except String Bool
  lcpEval : Except String Rat
  responsiveEval : Bool → Except String (List String)
  consoleEval : Except String (List String)
  requestEval : Except String (List String)
  formEval : Bool → Except String (List String)
  techEval : Except String (List String)
  screenshotErr : Option String

/-- Outcomes of the batch-level browser interactions of `audit.run`, plus
one `PageEnv` per loop iteration. -/
structure RunEnv where
  browserNavErr : Option String
  browserSleepErr : Option String
  page : Nat → PageEnv

/-! ## The check pipeline (audit.runSingle) -/

/-- Translation of the first `chromedp.Run` block of `runSingle`: open the
window on a blank page and sleep; returns the wrapped error if any call
failed. -/
def windowInitPhase (env : PageEnv) : Option String :=
  match env.blankNavErr with
  | some e => some ("failed to initialise window: " ++ e)
  | none =>
    match env.blankSleepErr with
    | some e => some ("failed to wait for window initialisation: " ++ e)
    | none => none

/-- Translation of the error-script half of the injection block of
`runSingle`: inject `errScript` when console or request errors are
enabled. -/
def injectErrPart (a : audit) (env : PageEnv) : Option String :=
  if a.checks.consoleErrs.enabled || a.checks.requestErrs.enabled then
    match env.errInjectErr with
    | some e => some ("failed to inject error script: " ++ e)
    | none => none
  else none

/-- Translation of the script-injection `chromedp.Run` block of
`runSingle`: enable the page domain, then inject the LCP script when `lcp`
is enabled and the error script when console/request errors are enabled. -/
def injectPhase (a : audit) (env : PageEnv) : Option String :=
  match env.pageEnableErr with
  | some e => some ("failed to enable page domain: " ++ e)
  | none =>
    if a.checks.lcp.enabled then
      match env.lcpInjectErr with
      | some e => some ("failed to inject LCP script: " ++ e)
      | none => injectErrPart a env
    else injectErrPart a env

/-- Translation of the network-setup `chromedp.Run` block of `runSingle`:
enable the network domain, clear the cache, clear the cookies. -/
def networkPhase (env : PageEnv) : Option String :=
  match env.networkEnableErr with
  | some e => some ("failed to enable network domain: " ++ e)
  | none =>
    match env.clearCacheErr with
    | some e => some ("failed to clear browser cache: " ++ e)
    | none =>
      match env.clearCookiesErr with
      | some e => some ("failed to clear browser cookies: " ++ e)
      | none => none

/-- Translation of line 312 of src/unnamed/part_019: the navigated URL,
with the scheme forced to `http` when the `secure` check is enabled. -/
def navURL (a : audit) (w : website) : String :=
  (if a.checks.secure.enabled then "http" else w.scheme) ++ "://" ++ w.domain ++ "/"

/-- Translation of the tail of the navigation block of `runSingle`: the
final one-second settle sleep, then the response is available. -/
def settlePart (ne : NavEnv) : Except String NavResp :=
  match ne.settleSleepErr with
  | some e => .error ("failed to wait for page to settle: " ++ e)
  | none => .ok ne.resp

/-- Translation of the navigation `chromedp.RunResponse` block of
`runSingle`: navigate, wait for `body`, wait for network idle (a
`context.DeadlineExceeded` from the idle wait is only logged), then
settle. -/
def runNavPhase (ne : NavEnv) : Except String NavResp :=
  match ne.navigateErr with
  | some e => .error ("failed to navigate: " ++ e)
  | none =>
    match ne.waitReadyErr with
    | some e => .error ("failed to wait for \"body\": " ++ e)
    | none =>
      match ne.idleErr with
      | some e =>
        if e.isDeadlineExceeded then settlePart ne
        else .error ("failed to wait for page to be idle: " ++ e.message)
      | none => settlePart ne

/-- Result type of one in-page evaluation step: the updated checks, or the
checks as mutated so far paired with the error that aborts the run. -/
abbrev checkStepResult := Except (auditChecks × String) auditChecks

/-- Sequencing of evaluation steps: stop at the first failing step, keeping
the partially mutated checks. -/
def stepBind (x : checkStepResult) (f : auditChecks → checkStepResult) :
    checkStepResult :=
  match x with
  | .error p => .error p
  | .ok c => f c

/-- Translation of the `secure` evaluation of `runSingle`. -/
def secureStep (a : audit) (env : PageEnv) (c : auditChecks) : checkStepResult :=
  if a.checks.secure.enabled then
    match env.secureEval with
    | .error e => .error (c, "failed to evaluate security: " ++ e)
    | .ok v => .ok { c with secure.result := v }
  else .ok c

/-- Translation of the `lcp` evaluation of `runSingle`. -/
def lcpStep (a : audit) (env : PageEnv) (c : auditChecks) : checkStepResult :=
  if a.checks.lcp.enabled then
    match env.lcpEval with
    | .error e => .error (c, "failed to evaluate LCP: " ++ e)
    | .ok v => .ok { c with lcp.result := v }
  else .ok c

/-- Translation of the `responsiveIssues` evaluation of `runSingle`; the
injected script is called with the `important` flag. -/
def responsiveStep (a : audit) (env : PageEnv) (c : auditChecks) : checkStepResult :=
  if a.checks.responsiveIssues.enabled then
    match env.responsiveEval a.important with
    | .error e => .error (c, "failed to evaluate mobile responsiveness: " ++ e)
    | .ok v => .ok { c with responsiveIssues.result := v }
  else .ok c

/-- Translation of the `consoleErrs` evaluation of `runSingle`. -/
def consoleStep (a : audit) (env : PageEnv) (c : auditChecks) : checkStepResult :=
  if a.checks.consoleErrs.enabled then
    match env.consoleEval with
    | .error e => .error (c, "failed to evaluate console errors: " ++ e)
    | .ok v => .ok { c with consoleErrs.result := v }
  else .ok c

/-- Translation of the `requestErrs` evaluation of `runSingle`. -/
def requestStep (a : audit) (env : PageEnv) (c : auditChecks) : checkStepResult :=
  if a.checks.requestErrs.enabled then
    match env.requestEval with
    | .error e => .error (c, "failed to evaluate request errors: " ++ e)
    | .ok v => .ok { c with requestErrs.result := v }
  else .ok c

/-- Translation of the `formIssues` evaluation of `runSingle`; the injected
script is called with the `important` flag. -/
def formStep (a : audit) (env : PageEnv) (c : auditChecks) : checkStepResult :=
  if a.checks.formIssues.enabled then
    match env.formEval a.important with
    | .error e => .error (c, "failed to evaluate form issues: " ++ e)
    | .ok v => .ok { c with formIssues.result := v }
  else .ok c

/-- Translation of the `techStack` evaluation of `runSingle`: in important
mode the check only runs when the responsive or form results collected so
far are non-empty. -/
def techStep (a : audit) (env : PageEnv) (c : auditChecks) : checkStepResult :=
  if a.checks.techStack.enabled then
    if !a.important ||
        (decide (0 < c.responsiveIssues.result.length) ||
         decide (0 < c.formIssues.result.length)) then
      match env.techEval with
      | .error e => .error (c, "failed to detect tech stack: " ++ e)
      | .ok v => .ok { c with techStack.result := v }
    else .ok c
  else .ok c

/-- Tail of the evaluation sequence starting at the `formIssues` check. -/
def evalFromForm (a : audit) (env : PageEnv) : auditChecks → checkStepResult :=
  fun c => stepBind (formStep a env c) (techStep a env)

/-- Tail of the evaluation sequence starting at the `requestErrs` check. -/
def evalFromRequest (a : audit) (env : PageEnv) : auditChecks → checkStepResult :=
  fun c => stepBind (requestStep a env c) (evalFromForm a env)

/-- Tail of the evaluation sequence starting at the `consoleErrs` check. -/
def evalFromConsole (a : audit) (env : PageEnv) : auditChecks → checkStepResult :=
  fun c => stepBind (consoleStep a env c) (evalFromRequest a env)

/-- Tail of the evaluation sequence starting at the `responsiveIssues`
check. -/
def evalFromResponsive (a : audit) (env : PageEnv) : auditChecks → checkStepResult :=
  fun c => stepBind (responsiveStep a env c) (evalFromConsole a env)

/-- Tail of the evaluation sequence starting at the `lcp` check. -/
def evalFromLcp (a : audit) (env : PageEnv) : auditChecks → checkStepResult :=
  fun c => stepBind (lcpStep a env c) (evalFromResponsive a env)

/-- Translation of the in-page evaluation `chromedp.Run` block of
`runSingle` (secure, lcp, responsive, console, request, form, tech, in the
source order, stopping at the first failure). -/
def evalPhase (a : audit) (env : PageEnv) : auditChecks → checkStepResult :=
  fun c => stepBind (secureStep a env c) (evalFromLcp a env)

/-- Translation of lines 352–355 of src/unnamed/part_019: when
`missingHeaders` is enabled, store the missing security headers computed
from the main-document response. -/
def headerPhaseChecks (a : audit) (nr : NavResp) : auditChecks :=
  if a.checks.missingHeaders.enabled then
    { a.checks with missingHeaders.result := checkSecurityHeaders nr.headers }
  else a.checks

/-- Translation of `audit.captureScreenshot`: the captured flag and the
error, where a failure yields `false`. -/
def captureScreenshot (envErr : Option String) : Bool × Option String :=
  match envErr with
  | some e => (false, some e)
  | none => (true, none)

/-- Translation of `audit.runSingle` (src/unnamed/part_019): the per-site
check pipeline, as a pure function of the configuration, the browser
environment and the site. -/
def audit.runSingle (a : audit) (env : PageEnv) (w : website) : auditResult :=
  match windowInitPhase env with
  | some e => { website := w.domain, checks := a.checks, auditErrs := [e] }
  | none =>
  match injectPhase a env with
  | some e => { website := w.domain, checks := a.checks, auditErrs := [e] }
  | none =>
  match env.emulateErr with
  | some e =>
    { website := w.domain, checks := a.checks,
      auditErrs := ["failed to emulate mobile device: " ++ e] }
  | none =>
  match networkPhase env with
  | some e => { website := w.domain, checks := a.checks, auditErrs := [e] }
  | none =>
  match runNavPhase (env.nav (navURL a w)) with
  | .error e => { website := w.domain, checks := a.checks, auditErrs := [e] }
  | .ok nr =>
  if 400 ≤ nr.status then
    { website := w.domain, checks := a.checks,
      auditErrs := ["failed to navigate: HTTP Status - " ++ toString nr.status] }
  else
  match evalPhase a env (headerPhaseChecks a nr) with
  | .error (c, e) => { website := w.domain, checks := c, auditErrs := [e] }
  | .ok c2 =>
  if a.checks.screenshot.enabled then
    match captureScreenshot env.screenshotErr with
    | (v, some e) =>
      { website := w.domain, checks := { c2 with screenshot.result := v },
        auditErrs := [e] }
    | (v, none) =>
      { website := w.domain, checks := { c2 with screenshot.result := v },
        auditErrs := [] }
  else { website := w.domain, checks := c2, auditErrs := [] }

/-! ## The batch loop (audit.run) -/

/-- Translation of the browser-initialisation `chromedp.Run` block of
`audit.run`. -/
def browserInitPhase (env : RunEnv) : Option String :=
  match env.browserNavErr with
  | some e => some ("failed to initialise browser: " ++ e)
  | none =>
    match env.browserSleepErr with
    | some e => some ("failed to wait for browser initialisation: " ++ e)
    | none => none

/-- Translation of the `for i, website := range websites` loop of
`audit.run`: one `runSingle` per site, in input order, at loop index `i`. -/
def runAll (a : audit) (env : RunEnv) : List website → Nat → List auditResult
  | [], _ => []
  | w :: ws, i => audit.runSingle a (env.page i) w :: runAll a env ws (i + 1)

/-- Translation of `audit.run` (src/unnamed/part_019): reject an empty site
list, open the browser (fatal on failure), then audit every site
sequentially. -/
def audit.run (a : audit) (env : RunEnv) (websites : List website) :
    Except String (List auditResult) :=
  if websites.length = 0 then .error "no websites to audit"
  else
    match browserInitPhase env with
    | some e => .error ("failed to open browser: " ++ e)
    | none => .ok (runAll a env websites 0)

/-! ## The network-idle detector (audit.waitNetworkIdle) -/

/-- The chromedp request identifier, modelled as a number. -/
abbrev RequestID := Nat

/-- The ephemeral state of one `waitNetworkIdle` call: the in-flight
request map and the running/stopped status of the idle timer and of the
static-site fallback timer. -/
structure IdleWaitState where
  activeRequests : List (RequestID × String)
  idleRunning : Bool
  staticRunning : Bool
deriving Repr, DecidableEq

/-- The three network events observed by the `ListenTarget` callback of
`waitNetworkIdle`. -/
inductive NetEvent where
  | requestWillBeSent (id : RequestID) (url : String)
  | loadingFinished (id : RequestID)
  | loadingFailed (id : RequestID)
deriving Repr, DecidableEq

/-- Go map insertion (`m[k] = v`) on the association-list model. -/
def mapInsert (m : List (RequestID × String)) (k : RequestID) (v : String) :
    List (RequestID × String) :=
  match m with
  | [] => [(k, v)]
  | (k2, v2) :: rest =>
    if k2 == k then (k, v) :: rest else (k2, v2) :: mapInsert rest k v

/-- Go map deletion (`delete(m, k)`) on the association-list model. -/
def mapErase (m : List (RequestID × String)) (k : RequestID) :
    List (RequestID × String) :=
  match m with
  | [] => []
  | (k2, v2) :: rest =>
    if k2 == k then rest else (k2, v2) :: mapErase rest k

/-- Go map membership (`_, ok := m[k]`) on the association-list model. -/
def mapContains (m : List (RequestID × String)) (k : RequestID) : Bool :=
  m.any (fun p => p.1 == k)

/-- Translation of the `ListenTarget` event callback of
`audit.waitNetworkIdle` (src/unnamed/part_019) as a state-transition
function: a non-ignored request start stops the static timer, records the
request and stops the idle timer; a finish/failure removes a recorded
request and restarts the idle timer exactly when the map becomes empty. -/
def idleStep (s : IdleWaitState) (ev : NetEvent) : IdleWaitState :=
  match ev with
  | .requestWillBeSent id url =>
    if !(isIgnoredResource (goToLower url) ignoredIdlePatterns) then
      { staticRunning := false
        activeRequests := mapInsert s.activeRequests id url
        idleRunning := false }
    else s
  | .loadingFinished id =>
    if mapContains s.activeRequests id then
      let m := mapErase s.activeRequests id
      { s with
        activeRequests := m
        idleRunning := if m.isEmpty then true else s.idleRunning }
    else s
  | .loadingFailed id =>
    if mapContains s.activeRequests id then
      let m := mapErase s.activeRequests id
      { s with
        activeRequests := m
        idleRunning := if m.isEmpty then true else s.idleRunning }
    else s

/-- The first of the four `select` alternatives of `waitNetworkIdle` to
fire: the idle timer, the static-site fallback timer (carrying the result
of its `WaitReady` call), the `maxWait` timer, or context cancellation. -/
inductive FirstDeadline where
  | idleFired
  | staticFired (waitReadyErr : Option GoErr)
  | maxWaitFired
  | ctxDone (e : GoErr)
deriving Repr, DecidableEq

/-- Translation of the final `select` of `audit.waitNetworkIdle`: idle
fires with no error, the static fallback returns its `WaitReady` outcome,
`maxWait` returns `context.DeadlineExceeded`, cancellation returns the
context error. -/
def waitNetworkIdleSelect : FirstDeadline → Option GoErr
  | .idleFired => none
  | .staticFired waitReadyErr => waitReadyErr
  | .maxWaitFired => some .deadlineExceeded
  | .ctxDone e => some e

/-! ## Frame machinery for the evaluation phase

`stepKeeps f step` states that the quantity `f` of the check record is
unchanged by `step`, on both its success and its failure exit. -/

/-- The checks carried by a step outcome, successful or not. -/
def outChecks (x : checkStepResult) : auditChecks :=
  match x with
  | .ok c => c
  | .error (c, _) => c

/-- A step preserves the quantity `f` of the check record. -/
def stepKeeps {α : Type} (f : auditChecks → α)
    (step : auditChecks → checkStepResult) : Prop :=
  ∀ c, f (outChecks (step c)) = f c

lemma stepKeeps_of_ok_id {α : Type} (f : auditChecks → α)
    (step : auditChecks → checkStepResult) (h : ∀ c, step c = .ok c) :
    stepKeeps f step := by
  intro c
  rw [h c]
  rfl

lemma outChecks_stepBind {α : Type} (f : auditChecks → α) (x : checkStepResult)
    (k : auditChecks → checkStepResult) (hk : stepKeeps f k) :
    f (outChecks (stepBind x k)) = f (outChecks x) := by
  cases x with
  | ok c => simpa [stepBind, outChecks] using hk c
  | error p => rfl

lemma secureStep_keeps {α : Type} (a : audit) (env : PageEnv) (f : auditChecks → α)
    (hf : ∀ c v, f { c with secure.result := v } = f c) :
    stepKeeps f (secureStep a env) := by
  intro c
  unfold secureStep
  split
  · cases env.secureEval <;> simp [outChecks, hf]
  · rfl

lemma lcpStep_keeps {α : Type} (a : audit) (env : PageEnv) (f : auditChecks → α)
    (hf : ∀ c v, f { c with lcp.result := v } = f c) :
    stepKeeps f (lcpStep a env) := by
  intro c
  unfold lcpStep
  split
  · cases env.lcpEval <;> simp [outChecks, hf]
  · rfl

lemma responsiveStep_keeps {α : Type} (a : audit) (env : PageEnv) (f : auditChecks → α)
    (hf : ∀ c v, f { c with responsiveIssues.result := v } = f c) :
    stepKeeps f (responsiveStep a env) := by
  intro c
  unfold responsiveStep
  split
  · cases env.responsiveEval a.important <;> simp [outChecks, hf]
  · rfl

lemma consoleStep_keeps {α : Type} (a : audit) (env : PageEnv) (f : auditChecks → α)
    (hf : ∀ c v, f { c with consoleErrs.result := v } = f c) :
    stepKeeps f (consoleStep a env) := by
  intro c
  unfold consoleStep
  split
  · cases env.consoleEval <;> simp [outChecks, hf]
  · rfl

lemma requestStep_keeps {α : Type} (a : audit) (env : PageEnv) (f : auditChecks → α)
    (hf : ∀ c v, f { c with requestErrs.result := v } = f c) :
    stepKeeps f (requestStep a env) := by
  intro c
  unfold requestStep
  split
  · cases env.requestEval <;> simp [outChecks, hf]
  · rfl

lemma formStep_keeps {α : Type} (a : audit) (env : PageEnv) (f : auditChecks → α)
    (hf : ∀ c v, f { c with formIssues.result := v } = f c) :
    stepKeeps f (formStep a env) := by
  intro c
  unfold formStep
  split
  · cases env.formEval a.important <;> simp [outChecks, hf]
  · rfl

lemma techStep_keeps {α : Type} (a : audit) (env : PageEnv) (f : auditChecks → α)
    (hf : ∀ c v, f { c with techStack.result := v } = f c) :
    stepKeeps f (techStep a env) := by
  intro c
  unfold techStep
  split
  · cases htech : env.techEval with
    | error e => split <;> rfl
    | ok v =>
      split
      · exact hf c v
      · rfl
  · rfl

lemma secureStep_disabled (a : audit) (env : PageEnv)
    (h : a.checks.secure.enabled = false) : ∀ c, secureStep a env c = .ok c := by
  intro c
  simp [secureStep, h]

lemma lcpStep_disabled (a : audit) (env : PageEnv)
    (h : a.checks.lcp.enabled = false) : ∀ c, lcpStep a env c = .ok c := by
  intro c
  simp [lcpStep, h]

lemma responsiveStep_disabled (a : audit) (env : PageEnv)
    (h : a.checks.responsiveIssues.enabled = false) :
    ∀ c, responsiveStep a env c = .ok c := by
  intro c
  simp [responsiveStep, h]

lemma consoleStep_disabled (a : audit) (env : PageEnv)
    (h : a.checks.consoleErrs.enabled = false) : ∀ c, consoleStep a env c = .ok c := by
  intro c
  simp [consoleStep, h]

lemma requestStep_disabled (a : audit) (env : PageEnv)
    (h : a.checks.requestErrs.enabled = false) : ∀ c, requestStep a env c = .ok c := by
  intro c
  simp [requestStep, h]

lemma formStep_disabled (a : audit) (env : PageEnv)
    (h : a.checks.formIssues.enabled = false) : ∀ c, formStep a env c = .ok c := by
  intro c
  simp [formStep, h]

lemma techStep_disabled (a : audit) (env : PageEnv)
    (h : a.checks.techStack.enabled = false) : ∀ c, techStep a env c = .ok c := by
  intro c
  simp [techStep, h]

lemma evalPhase_keeps {α : Type} (a : audit) (env : PageEnv) (f : auditChecks → α)
    (h1 : stepKeeps f (secureStep a env)) (h2 : stepKeeps f (lcpStep a env))
    (h3 : stepKeeps f (responsiveStep a env)) (h4 : stepKeeps f (consoleStep a env))
    (h5 : stepKeeps f (requestStep a env)) (h6 : stepKeeps f (formStep a env))
    (h7 : stepKeeps f (techStep a env)) :
    stepKeeps f (evalPhase a env) := by
  have k6 : stepKeeps f (evalFromForm a env) := by
    intro c
    unfold evalFromForm
    rw [outChecks_stepBind f _ _ h7]
    exact h6 c
  have k5 : stepKeeps f (evalFromRequest a env) := by
    intro c
    unfold evalFromRequest
    rw [outChecks_stepBind f _ _ k6]
    exact h5 c
  have k4 : stepKeeps f (evalFromConsole a env) := by
    intro c
    unfold evalFromConsole
    rw [outChecks_stepBind f _ _ k5]
    exact h4 c
  have k3 : stepKeeps f (evalFromResponsive a env) := by
    intro c
    unfold evalFromResponsive
    rw [outChecks_stepBind f _ _ k4]
    exact h3 c
  have k2 : stepKeeps f (evalFromLcp a env) := by
    intro c
    unfold evalFromLcp
    rw [outChecks_stepBind f _ _ k3]
    exact h2 c
  intro c
  unfold evalPhase
  rw [outChecks_stepBind f _ _ k2]
  exact h1 c

/-- Frame lemma for `runSingle`: any quantity of the check record that the
evaluation phase keeps, that is unaffected by storing the missing headers
(when that check is enabled) and by storing the screenshot flag (when that
check is enabled), is the same in the returned result as in the audit's
own check selection. -/
lemma runSingle_checks_f (a : audit) (env : PageEnv) (w : website) {α : Type}
    (f : auditChecks → α)
    (hkeep : stepKeeps f (evalPhase a env))
    (hheaders : a.checks.missingHeaders.enabled = true →
      ∀ c v, f { c with missingHeaders.result := v } = f c)
    (hshot : a.checks.screenshot.enabled = true →
      ∀ c v, f { c with screenshot.result := v } = f c) :
    f (audit.runSingle a env w).checks = f a.checks := by
  have hc1 : ∀ nr, f (headerPhaseChecks a nr) = f a.checks := by
    intro nr
    unfold headerPhaseChecks
    split
    · next hen => exact hheaders hen a.checks (checkSecurityHeaders nr.headers)
    · rfl
  unfold audit.runSingle
  split
  · rfl
  split
  · rfl
  split
  · rfl
  split
  · rfl
  split
  · rfl
  next nr hnr =>
  split
  · rfl
  split
  · next c e heval =>
    have := hkeep (headerPhaseChecks a nr)
    rw [heval] at this
    simpa [outChecks] using this.trans (hc1 nr)
  · next c2 heval =>
    have hkc2 : f c2 = f a.checks := by
      have := hkeep (headerPhaseChecks a nr)
      rw [heval] at this
      simpa [outChecks] using this.trans (hc1 nr)
    split
    · next hen =>
      cases hcap : captureScreenshot env.screenshotErr with
      | mk v oerr =>
        cases oerr <;> simp <;> rw [hshot hen c2 v] <;> exact hkc2
    · exact hkc2

/-! ## Characterisation of parseAndValidateChecks -/

lemma enableCheck_ok_flags (c : auditChecks) (n : String) (c2 : auditChecks)
    (h : enableCheck c n = .ok c2) :
    (c2.secure.enabled = (c.secure.enabled || (n == "security")) ∧
     c2.lcp.enabled = (c.lcp.enabled || (n == "lcp")) ∧
     c2.consoleErrs.enabled = (c.consoleErrs.enabled || (n == "console")) ∧
     c2.requestErrs.enabled = (c.requestErrs.enabled || (n == "request")) ∧
     c2.missingHeaders.enabled = (c.missingHeaders.enabled || (n == "headers")) ∧
     c2.responsiveIssues.enabled = (c.responsiveIssues.enabled || (n == "mobile")) ∧
     c2.formIssues.enabled = (c.formIssues.enabled || (n == "form")) ∧
     c2.techStack.enabled = (c.techStack.enabled || (n == "tech")) ∧
     c2.screenshot.enabled = (c.screenshot.enabled || (n == "screenshot"))) ∧
    (c2.secure.result = c.secure.result ∧ c2.lcp.result = c.lcp.result ∧
     c2.consoleErrs.result = c.consoleErrs.result ∧
     c2.requestErrs.result = c.requestErrs.result ∧
     c2.missingHeaders.result = c.missingHeaders.result ∧
     c2.responsiveIssues.result = c.responsiveIssues.result ∧
     c2.formIssues.result = c.formIssues.result ∧
     c2.techStack.result = c.techStack.result ∧
     c2.screenshot.result = c.screenshot.result) := by
  unfold enableCheck at h
  split_ifs at h with h1 h2 h3 h4 h5 h6 h7 h8 h9 <;> cases h <;> subst_vars <;>
    simp

lemma enableChecksList_flags (ns : List String) (c c2 : auditChecks)
    (h : enableChecksList c ns = .ok c2) :
    (c2.secure.enabled =
       (c.secure.enabled || ns.any (fun m => goTrimSpace m == "security")) ∧
     c2.lcp.enabled = (c.lcp.enabled || ns.any (fun m => goTrimSpace m == "lcp")) ∧
     c2.consoleErrs.enabled =
       (c.consoleErrs.enabled || ns.any (fun m => goTrimSpace m == "console")) ∧
     c2.requestErrs.enabled =
       (c.requestErrs.enabled || ns.any (fun m => goTrimSpace m == "request")) ∧
     c2.missingHeaders.enabled =
       (c.missingHeaders.enabled || ns.any (fun m => goTrimSpace m == "headers")) ∧
     c2.responsiveIssues.enabled =
       (c.responsiveIssues.enabled || ns.any (fun m => goTrimSpace m == "mobile")) ∧
     c2.formIssues.enabled =
       (c.formIssues.enabled || ns.any (fun m => goTrimSpace m == "form")) ∧
     c2.techStack.enabled =
       (c.techStack.enabled || ns.any (fun m => goTrimSpace m == "tech")) ∧
     c2.screenshot.enabled =
       (c.screenshot.enabled || ns.any (fun m => goTrimSpace m == "screenshot"))) ∧
    (c2.secure.result = c.secure.result ∧ c2.lcp.result = c.lcp.result ∧
     c2.consoleErrs.result = c.consoleErrs.result ∧
     c2.requestErrs.result = c.requestErrs.result ∧
     c2.missingHeaders.result = c.missingHeaders.result ∧
     c2.responsiveIssues.result = c.responsiveIssues.result ∧
     c2.formIssues.result = c.formIssues.result ∧
     c2.techStack.result = c.techStack.result ∧
     c2.screenshot.result = c.screenshot.result) := by
  induction ns generalizing c with
  | nil =>
    unfold enableChecksList at h
    cases h
    simp
  | cons n ns ih =>
    unfold enableChecksList at h
    cases hstep : enableCheck c (goTrimSpace n) with
    | error e =>
      rw [hstep] at h
      cases h
    | ok cMid =>
      rw [hstep] at h
      obtain ⟨hf, hr⟩ := enableCheck_ok_flags c (goTrimSpace n) cMid hstep
      obtain ⟨gf, gr⟩ := ih cMid h
      constructor
      · refine ⟨?_, ?_, ?_, ?_, ?_, ?_, ?_, ?_, ?_⟩
        · rw [gf.1, hf.1]
          simp [List.any_cons, Bool.or_assoc]
        · rw [gf.2.1, hf.2.1]
          simp [List.any_cons, Bool.or_assoc]
        · rw [gf.2.2.1, hf.2.2.1]
          simp [List.any_cons, Bool.or_assoc]
        · rw [gf.2.2.2.1, hf.2.2.2.1]
          simp [List.any_cons, Bool.or_assoc]
        · rw [gf.2.2.2.2.1, hf.2.2.2.2.1]
          simp [List.any_cons, Bool.or_assoc]
        · rw [gf.2.2.2.2.2.1, hf.2.2.2.2.2.1]
          simp [List.any_cons, Bool.or_assoc]
        · rw [gf.2.2.2.2.2.2.1, hf.2.2.2.2.2.2.1]
          simp [List.any_cons, Bool.or_assoc]
        · rw [gf.2.2.2.2.2.2.2.1, hf.2.2.2.2.2.2.2.1]
          simp [List.any_cons, Bool.or_assoc]
        · rw [gf.2.2.2.2.2.2.2.2, hf.2.2.2.2.2.2.2.2]
          simp [List.any_cons, Bool.or_assoc]
      · exact ⟨gr.1.trans hr.1, gr.2.1.trans hr.2.1,
          gr.2.2.1.trans hr.2.2.1, gr.2.2.2.1.trans hr.2.2.2.1,
          gr.2.2.2.2.1.trans hr.2.2.2.2.1,
          gr.2.2.2.2.2.1.trans hr.2.2.2.2.2.1,
          gr.2.2.2.2.2.2.1.trans hr.2.2.2.2.2.2.1,
          gr.2.2.2.2.2.2.2.1.trans hr.2.2.2.2.2.2.2.1,
          gr.2.2.2.2.2.2.2.2.trans hr.2.2.2.2.2.2.2.2⟩

/-- Every selection produced by `parseAndValidateChecks` carries only zero
values in its result slots. -/
lemma parse_results_zero (imp : Bool) (s : String) (c : auditChecks)
    (h : parseAndValidateChecks imp s = .ok c) :
    c.secure.result = false ∧ c.lcp.result = 0 ∧ c.consoleErrs.result = [] ∧
    c.requestErrs.result = [] ∧ c.missingHeaders.result = [] ∧
    c.responsiveIssues.result = [] ∧ c.formIssues.result = [] ∧
    c.techStack.result = [] ∧ c.screenshot.result = false := by
  unfold parseAndValidateChecks at h
  cases imp with
  | true =>
    cases hs : (s != "") with
    | true => simp [hs] at h
    | false =>
      simp [hs] at h
      subst h
      exact ⟨rfl, rfl, rfl, rfl, rfl, rfl, rfl, rfl, rfl⟩
  | false =>
    cases hs : (s == "") with
    | true =>
      simp [hs] at h
      subst h
      exact ⟨rfl, rfl, rfl, rfl, rfl, rfl, rfl, rfl, rfl⟩
    | false =>
      simp [hs] at h
      obtain ⟨-, hr⟩ :=
        enableChecksList_flags (goSplitComma s) emptyAuditChecks c h
      exact ⟨hr.1, hr.2.1, hr.2.2.1, hr.2.2.2.1, hr.2.2.2.2.1, hr.2.2.2.2.2.1,
        hr.2.2.2.2.2.2.1, hr.2.2.2.2.2.2.2.1, hr.2.2.2.2.2.2.2.2⟩

/-- The important branch is the only way `parseAndValidateChecks true _`
can succeed. -/
lemma parse_important_eq (s : String) (c : auditChecks)
    (h : parseAndValidateChecks true s = .ok c) : c = importantAuditChecks := by
  unfold parseAndValidateChecks at h
  cases hs : (s != "") with
  | true => simp [hs] at h
  | false =>
    simp [hs] at h
    exact h.symm

/-- Auxiliary foldl/filter description of the missing-header loop. -/
lemma foldl_missing_filter (p : String → Bool) (l acc : List String) :
    l.foldl (fun missing h => if p h then missing else missing ++ [h]) acc =
      acc ++ l.filter (fun h => !p h) := by
  induction l generalizing acc with
  | nil => simp
  | cons h t ih =>
    by_cases hp : p h <;>
      simp [List.foldl_cons, hp, ih, List.filter_cons, List.append_assoc]

/-! ## Claim theorems -/

/-- C10: invoking `audit.run` with an empty list of sites does not return an
empty result list; it returns the error "no websites to audit" before any
browser work. -/
theorem run_empty_sites_error (a : audit) (env : RunEnv) :
    audit.run a env [] = .error "no websites to audit" := rfl

/-- C3: the network-idle detector's event-transition function matches the
specified state machine: a non-ignored "request started" stops the
static-fallback timer, inserts the request and stops the idle timer; a
"request finished"/"request failed" removes the request if present and
(re)starts the idle timer exactly when the active set becomes empty; events
for ignored resources or unknown requests leave the state unchanged. -/
theorem waitNetworkIdle_transitions :
    (∀ (st : IdleWaitState) (id : RequestID) (url : String),
      isIgnoredResource (goToLower url) ignoredIdlePatterns = false →
      idleStep st (.requestWillBeSent id url) =
        { activeRequests := mapInsert st.activeRequests id url,
          idleRunning := false, staticRunning := false }) ∧
    (∀ (st : IdleWaitState) (id : RequestID) (url : String),
      isIgnoredResource (goToLower url) ignoredIdlePatterns = true →
      idleStep st (.requestWillBeSent id url) = st) ∧
    (∀ (st : IdleWaitState) (id : RequestID),
      mapContains st.activeRequests id = true →
      ((idleStep st (.loadingFinished id)).activeRequests =
          mapErase st.activeRequests id ∧
       (idleStep st (.loadingFinished id)).staticRunning = st.staticRunning ∧
       (idleStep st (.loadingFinished id)).idleRunning =
         (if (mapErase st.activeRequests id).isEmpty then true
          else st.idleRunning)) ∧
      ((idleStep st (.loadingFailed id)).activeRequests =
          mapErase st.activeRequests id ∧
       (idleStep st (.loadingFailed id)).staticRunning = st.staticRunning ∧
       (idleStep st (.loadingFailed id)).idleRunning =
         (if (mapErase st.activeRequests id).isEmpty then true
          else st.idleRunning))) ∧
    (∀ (st : IdleWaitState) (id : RequestID),
      mapContains st.activeRequests id = false →
      idleStep st (.loadingFinished id) = st ∧
      idleStep st (.loadingFailed id) = st) := by
  refine ⟨?_, ?_, ?_, ?_⟩
  · intro st id url hurl
    simp [idleStep, hurl]
  · intro st id url hurl
    simp [idleStep, hurl]
  · intro st id hid
    constructor <;> simp [idleStep, hid]
  · intro st id hid
    constructor <;> simp [idleStep, hid]

/-- Witness for C3: the four transition equations at concrete states. -/
theorem waitNetworkIdle_transitions_witness :
    (idleStep ⟨[], false, true⟩ (.requestWillBeSent 1 "https://example.com/app.js") =
      { activeRequests := mapInsert [] 1 "https://example.com/app.js",
        idleRunning := false, staticRunning := false }) ∧
    (idleStep ⟨[(1, "u")], false, false⟩
        (.requestWillBeSent 2 "https://www.google-analytics.com/collect") =
      ⟨[(1, "u")], false, false⟩) ∧
    ((idleStep ⟨[(1, "u")], false, false⟩ (.loadingFinished 1)).activeRequests =
        mapErase [(1, "u")] 1 ∧
     (idleStep ⟨[(1, "u")], false, false⟩ (.loadingFinished 1)).staticRunning = false ∧
     (idleStep ⟨[(1, "u")], false, false⟩ (.loadingFinished 1)).idleRunning =
       (if (mapErase [(1, "u")] 1).isEmpty then true else false)) ∧
    (idleStep ⟨[(1, "u")], false, false⟩ (.loadingFailed 2) = ⟨[(1, "u")], false, false⟩) :=
  ⟨waitNetworkIdle_transitions.1 ⟨[], false, true⟩ 1 "https://example.com/app.js"
      (by decide),
   waitNetworkIdle_transitions.2.1 ⟨[(1, "u")], false, false⟩ 2
      "https://www.google-analytics.com/collect" (by decide),
   (waitNetworkIdle_transitions.2.2.1 ⟨[(1, "u")], false, false⟩ 1 (by decide)).1,
   (waitNetworkIdle_transitions.2.2.2 ⟨[(1, "u")], false, false⟩ 2 (by decide)).2⟩

/-- C7: `checkSecurityHeaders` compares response header names
case-insensitively with the fixed six-element list and returns exactly the
absent names in that list's order; a response containing all six (in any
letter case) yields the empty list, and the spec's two-missing scenario
yields exactly those two names in order. -/
theorem checkSecurityHeaders_spec :
    (∀ resHeaders, checkSecurityHeaders resHeaders =
       securityHeaders.filter
         (fun header => !(resHeaders.any (fun key => goEqualFold key header)))) ∧
    (∀ resHeaders,
      (∀ header ∈ securityHeaders,
        resHeaders.any (fun key => goEqualFold key header) = true) →
      checkSecurityHeaders resHeaders = []) ∧
    checkSecurityHeaders ["content-security-policy", "x-content-type-options",
      "permissions-policy", "referrer-policy"] =
      ["Strict-Transport-Security", "X-Frame-Options"] := by
  have hmain : ∀ resHeaders, checkSecurityHeaders resHeaders =
      securityHeaders.filter
        (fun header => !(resHeaders.any (fun key => goEqualFold key header))) := by
    intro resHeaders
    unfold checkSecurityHeaders
    simpa using
      foldl_missing_filter
        (fun header => resHeaders.any (fun key => goEqualFold key header))
        securityHeaders []
  refine ⟨hmain, ?_, by decide⟩
  intro resHeaders hall
  rw [hmain]
  simp only [List.filter_eq_nil_iff]
  intro header hmem
  simp [hall header hmem]

/-- Witness for C7: a response carrying all six required headers in mixed
letter case yields no findings. -/
theorem checkSecurityHeaders_spec_witness :
    checkSecurityHeaders ["content-security-policy", "STRICT-TRANSPORT-SECURITY",
      "x-content-type-options", "X-Frame-Options", "permissions-POLICY",
      "Referrer-Policy"] = [] :=
  checkSecurityHeaders_spec.2.1 _ (by decide)

/-- C8: check selection is computed from configuration as specified:
important mode enables exactly `secure`, `responsiveIssues`, `formIssues`
and `techStack` and no others; an empty check string without important mode
enables all nine checks; a comma-delimited string enables exactly the
checks named in it (whitespace-trimmed) and leaves all others disabled. -/
theorem parseChecks_selection_spec :
    (∀ s c, parseAndValidateChecks true s = .ok c →
      c.secure.enabled = true ∧ c.responsiveIssues.enabled = true ∧
      c.formIssues.enabled = true ∧ c.techStack.enabled = true ∧
      c.lcp.enabled = false ∧ c.consoleErrs.enabled = false ∧
      c.requestErrs.enabled = false ∧ c.missingHeaders.enabled = false ∧
      c.screenshot.enabled = false) ∧
    (∀ c, parseAndValidateChecks false "" = .ok c →
      c.secure.enabled = true ∧ c.lcp.enabled = true ∧
      c.consoleErrs.enabled = true ∧ c.requestErrs.enabled = true ∧
      c.missingHeaders.enabled = true ∧ c.responsiveIssues.enabled = true ∧
      c.formIssues.enabled = true ∧ c.techStack.enabled = true ∧
      c.screenshot.enabled = true) ∧
    (∀ s c, (s == "") = false → parseAndValidateChecks false s = .ok c →
      ((c.secure.enabled = true ↔
          "security" ∈ (goSplitComma s).map goTrimSpace) ∧
       (c.lcp.enabled = true ↔ "lcp" ∈ (goSplitComma s).map goTrimSpace) ∧
       (c.consoleErrs.enabled = true ↔
          "console" ∈ (goSplitComma s).map goTrimSpace) ∧
       (c.requestErrs.enabled = true ↔
          "request" ∈ (goSplitComma s).map goTrimSpace) ∧
       (c.missingHeaders.enabled = true ↔
          "headers" ∈ (goSplitComma s).map goTrimSpace) ∧
       (c.responsiveIssues.enabled = true ↔
          "mobile" ∈ (goSplitComma s).map goTrimSpace) ∧
       (c.formIssues.enabled = true ↔
          "form" ∈ (goSplitComma s).map goTrimSpace) ∧
       (c.techStack.enabled = true ↔
          "tech" ∈ (goSplitComma s).map goTrimSpace) ∧
       (c.screenshot.enabled = true ↔
          "screenshot" ∈ (goSplitComma s).map goTrimSpace))) := by
  refine ⟨?_, ?_, ?_⟩
  · intro s c h
    have hc := parse_important_eq s c h
    subst hc
    exact ⟨rfl, rfl, rfl, rfl, rfl, rfl, rfl, rfl, rfl⟩
  · intro c h
    unfold parseAndValidateChecks at h
    simp at h
    subst h
    exact ⟨rfl, rfl, rfl, rfl, rfl, rfl, rfl, rfl, rfl⟩
  · intro s c hs h
    unfold parseAndValidateChecks at h
    simp [hs] at h
    obtain ⟨gf, -⟩ :=
      enableChecksList_flags (goSplitComma s) emptyAuditChecks c h
    refine ⟨?_, ?_, ?_, ?_, ?_, ?_, ?_, ?_, ?_⟩
    · rw [gf.1]
      simp [emptyAuditChecks, List.any_eq_true, List.mem_map]
    · rw [gf.2.1]
      simp [emptyAuditChecks, List.any_eq_true, List.mem_map]
    · rw [gf.2.2.1]
      simp [emptyAuditChecks, List.any_eq_true, List.mem_map]
    · rw [gf.2.2.2.1]
      simp [emptyAuditChecks, List.any_eq_true, List.mem_map]
    · rw [gf.2.2.2.2.1]
      simp [emptyAuditChecks, List.any_eq_true, List.mem_map]
    · rw [gf.2.2.2.2.2.1]
      simp [emptyAuditChecks, List.any_eq_true, List.mem_map]
    · rw [gf.2.2.2.2.2.2.1]
      simp [emptyAuditChecks, List.any_eq_true, List.mem_map]
    · rw [gf.2.2.2.2.2.2.2.1]
      simp [emptyAuditChecks, List.any_eq_true, List.mem_map]
    · rw [gf.2.2.2.2.2.2.2.2]
      simp [emptyAuditChecks, List.any_eq_true, List.mem_map]

/-- C9: the navigation URL is built with the scheme forced to `http`
exactly when the `secure` check is enabled, and with the site's original
scheme otherwise — the pipeline's behaviour depends on the navigation
environment only at that URL. -/
theorem navScheme_forced (a : audit) (env : PageEnv) (w : website) :
    (a.checks.secure.enabled = true →
      audit.runSingle a env w =
        audit.runSingle a
          { env with nav := fun _ => env.nav ("http://" ++ w.domain ++ "/") } w) ∧
    (a.checks.secure.enabled = false →
      audit.runSingle a env w =
        audit.runSingle a
          { env with nav := fun _ => env.nav (w.scheme ++ "://" ++ w.domain ++ "/") } w) := by
  constructor <;> intro h <;> simp only [audit.runSingle, navURL, h] <;> rfl

/-- C5: the idle detector's `select` returns `context.DeadlineExceeded`
when `maxWait` fires, and the pipeline treats exactly that error as
non-fatal (the run proceeds as if idle had been reached), while every
other settle-phase idle error is appended to `auditErrs` and aborts the
site's run immediately. -/
theorem idle_timeout_nonfatal (a : audit) (env : PageEnv) (w : website) :
    waitNetworkIdleSelect .maxWaitFired = some .deadlineExceeded ∧
    ((env.nav (navURL a w)).idleErr = some .deadlineExceeded →
      audit.runSingle a env w =
        audit.runSingle a
          { env with nav := fun u => { env.nav u with idleErr := none } } w) ∧
    (∀ e, (env.nav (navURL a w)).idleErr = some e →
      e.isDeadlineExceeded = false →
      windowInitPhase env = none → injectPhase a env = none →
      env.emulateErr = none → networkPhase env = none →
      (env.nav (navURL a w)).navigateErr = none →
      (env.nav (navURL a w)).waitReadyErr = none →
      audit.runSingle a env w =
        { website := w.domain, checks := a.checks,
          auditErrs := ["failed to wait for page to be idle: " ++ e.message] }) := by
  refine ⟨rfl, ?_, ?_⟩
  · intro hidle
    have hnav : runNavPhase (env.nav (navURL a w)) =
        runNavPhase { env.nav (navURL a w) with idleErr := none } := by
      unfold runNavPhase
      cases h1 : (env.nav (navURL a w)).navigateErr with
      | some e => rfl
      | none =>
        cases h2 : (env.nav (navURL a w)).waitReadyErr with
        | some e => rfl
        | none =>
          rw [hidle]
          rfl
    simp only [audit.runSingle]
    rw [hnav]
    rfl
  · intro e hidle hnd h1 h2 h3 h4 h5 h6
    unfold audit.runSingle
    rw [h1, h2, h3, h4]
    have hnav : runNavPhase (env.nav (navURL a w)) =
        .error ("failed to wait for page to be idle: " ++ e.message) := by
      unfold runNavPhase
      rw [h5, h6, hidle]
      simp [hnd]
    rw [hnav]

/-- The per-site loop returns one result per input site. -/
lemma runAll_length (a : audit) (env : RunEnv) :
    ∀ (ws : List website) (i : Nat), (runAll a env ws i).length = ws.length := by
  intro ws
  induction ws with
  | nil => intro i; rfl
  | cons w ws ih =>
    intro i
    simp [runAll, ih]

/-- The per-site loop audits the `j`-th site at loop index `i + j`. -/
lemma runAll_get (a : audit) (env : RunEnv) :
    ∀ (ws : List website) (i j : Nat) (hj : j < ws.length)
      (hj2 : j < (runAll a env ws i).length),
      (runAll a env ws i).get ⟨j, hj2⟩ =
        audit.runSingle a (env.page (i + j)) (ws.get ⟨j, hj⟩) := by
  intro ws
  induction ws with
  | nil =>
    intro i j hj hj2
    cases hj
  | cons w ws ih =>
    intro i j hj hj2
    cases j with
    | zero => rfl
    | succ j =>
      have hj' : j < ws.length := Nat.lt_of_succ_lt_succ hj
      have hj2' : j < (runAll a env ws (i + 1)).length := by
        rw [runAll_length]
        exact hj'
      have hstep : (runAll a env (w :: ws) i).get ⟨j + 1, hj2⟩ =
          (runAll a env ws (i + 1)).get ⟨j, hj2'⟩ := rfl
      rw [hstep, ih (i + 1) j hj' hj2']
      have harith : i + 1 + j = i + (j + 1) := by omega
      rw [harith]
      rfl

/-- C1: on success, `audit.run` returns exactly one `auditResult` per input
site, and the result at index `j` is the audit of the site at index `j` —
input order is preserved. -/
theorem run_preserves_order (a : audit) (env : RunEnv) (ws : List website)
    (rs : List auditResult) (h : audit.run a env ws = .ok rs) :
    rs.length = ws.length ∧
    ∀ (j : Nat) (hj : j < ws.length) (hj2 : j < rs.length),
      rs.get ⟨j, hj2⟩ = audit.runSingle a (env.page j) (ws.get ⟨j, hj⟩) := by
  unfold audit.run at h
  by_cases hlen : ws.length = 0
  · rw [if_pos hlen] at h
    cases h
  · rw [if_neg hlen] at h
    cases hb : browserInitPhase env with
    | some e =>
      rw [hb] at h
      cases h
    | none =>
      rw [hb] at h
      injection h with h
      subst h
      refine ⟨runAll_length a env ws 0, ?_⟩
      intro j hj hj2
      have := runAll_get a env ws 0 j hj hj2
      simpa using this

/-- C2: for every check disabled in the batch's selection (as produced by
`parseAndValidateChecks`), the corresponding field of the returned
`auditResult` holds its zero value, whatever the page environment did. -/
theorem disabled_checks_zero (imp : Bool) (s : String) (ch : auditChecks)
    (hp : parseAndValidateChecks imp s = .ok ch)
    (a : audit) (ha : a.checks = ch) (env : PageEnv) (w : website) :
    (ch.secure.enabled = false →
      (audit.runSingle a env w).checks.secure.result = false) ∧
    (ch.lcp.enabled = false →
      (audit.runSingle a env w).checks.lcp.result = 0) ∧
    (ch.consoleErrs.enabled = false →
      (audit.runSingle a env w).checks.consoleErrs.result = []) ∧
    (ch.requestErrs.enabled = false →
      (audit.runSingle a env w).checks.requestErrs.result = []) ∧
    (ch.missingHeaders.enabled = false →
      (audit.runSingle a env w).checks.missingHeaders.result = []) ∧
    (ch.responsiveIssues.enabled = false →
      (audit.runSingle a env w).checks.responsiveIssues.result = []) ∧
    (ch.formIssues.enabled = false →
      (audit.runSingle a env w).checks.formIssues.result = []) ∧
    (ch.techStack.enabled = false →
      (audit.runSingle a env w).checks.techStack.result = []) ∧
    (ch.screenshot.enabled = false →
      (audit.runSingle a env w).checks.screenshot.result = false) := by
  obtain ⟨z1, z2, z3, z4, z5, z6, z7, z8, z9⟩ := parse_results_zero imp s ch hp
  refine ⟨?_, ?_, ?_, ?_, ?_, ?_, ?_, ?_, ?_⟩
  · intro hdis
    have hd : a.checks.secure.enabled = false := ha ▸ hdis
    have hk : stepKeeps (fun c => c.secure.result) (evalPhase a env) :=
      evalPhase_keeps a env _
        (stepKeeps_of_ok_id _ _ (secureStep_disabled a env hd))
        (lcpStep_keeps a env _ (fun c v => rfl))
        (responsiveStep_keeps a env _ (fun c v => rfl))
        (consoleStep_keeps a env _ (fun c v => rfl))
        (requestStep_keeps a env _ (fun c v => rfl))
        (formStep_keeps a env _ (fun c v => rfl))
        (techStep_keeps a env _ (fun c v => rfl))
    have hframe := runSingle_checks_f a env w (fun c => c.secure.result) hk
      (fun _ c v => rfl) (fun _ c v => rfl)
    have hframe2 : (audit.runSingle a env w).checks.secure.result =
        a.checks.secure.result := hframe
    rw [hframe2, ha]
    exact z1
  · intro hdis
    have hd : a.checks.lcp.enabled = false := ha ▸ hdis
    have hk : stepKeeps (fun c => c.lcp.result) (evalPhase a env) :=
      evalPhase_keeps a env _
        (secureStep_keeps a env _ (fun c v => rfl))
        (stepKeeps_of_ok_id _ _ (lcpStep_disabled a env hd))
        (responsiveStep_keeps a env _ (fun c v => rfl))
        (consoleStep_keeps a env _ (fun c v => rfl))
        (requestStep_keeps a env _ (fun c v => rfl))
        (formStep_keeps a env _ (fun c v => rfl))
        (techStep_keeps a env _ (fun c v => rfl))
    have hframe := runSingle_checks_f a env w (fun c => c.lcp.result) hk
      (fun _ c v => rfl) (fun _ c v => rfl)
    have hframe2 : (audit.runSingle a env w).checks.lcp.result =
        a.checks.lcp.result := hframe
    rw [hframe2, ha]
    exact z2
  · intro hdis
    have hd : a.checks.consoleErrs.enabled = false := ha ▸ hdis
    have hk : stepKeeps (fun c => c.consoleErrs.result) (evalPhase a env) :=
      evalPhase_keeps a env _
        (secureStep_keeps a env _ (fun c v => rfl))
        (lcpStep_keeps a env _ (fun c v => rfl))
        (responsiveStep_keeps a env _ (fun c v => rfl))
        (stepKeeps_of_ok_id _ _ (consoleStep_disabled a env hd))
        (requestStep_keeps a env _ (fun c v => rfl))
        (formStep_keeps a env _ (fun c v => rfl))
        (techStep_keeps a env _ (fun c v => rfl))
    have hframe := runSingle_checks_f a env w (fun c => c.consoleErrs.result) hk
      (fun _ c v => rfl) (fun _ c v => rfl)
    have hframe2 : (audit.runSingle a env w).checks.consoleErrs.result =
        a.checks.consoleErrs.result := hframe
    rw [hframe2, ha]
    exact z3
  · intro hdis
    have hd : a.checks.requestErrs.enabled = false := ha ▸ hdis
    have hk : stepKeeps (fun c => c.requestErrs.result) (evalPhase a env) :=
      evalPhase_keeps a env _
        (secureStep_keeps a env _ (fun c v => rfl))
        (lcpStep_keeps a env _ (fun c v => rfl))
        (responsiveStep_keeps a env _ (fun c v => rfl))
        (consoleStep_keeps a env _ (fun c v => rfl))
        (stepKeeps_of_ok_id _ _ (requestStep_disabled a env hd))
        (formStep_keeps a env _ (fun c v => rfl))
        (techStep_keeps a env _ (fun c v => rfl))
    have hframe := runSingle_checks_f a env w (fun c => c.requestErrs.result) hk
      (fun _ c v => rfl) (fun _ c v => rfl)
    have hframe2 : (audit.runSingle a env w).checks.requestErrs.result =
        a.checks.requestErrs.result := hframe
    rw [hframe2, ha]
    exact z4
  · intro hdis
    have hd : a.checks.missingHeaders.enabled = false := ha ▸ hdis
    have hk : stepKeeps (fun c => c.missingHeaders.result) (evalPhase a env) :=
      evalPhase_keeps a env _
        (secureStep_keeps a env _ (fun c v => rfl))
        (lcpStep_keeps a env _ (fun c v => rfl))
        (responsiveStep_keeps a env _ (fun c v => rfl))
        (consoleStep_keeps a env _ (fun c v => rfl))
        (requestStep_keeps a env _ (fun c v => rfl))
        (formStep_keeps a env _ (fun c v => rfl))
        (techStep_keeps a env _ (fun c v => rfl))
    have hframe := runSingle_checks_f a env w (fun c => c.missingHeaders.result) hk
      (fun hen => absurd hen (by simp [hd])) (fun _ c v => rfl)
    have hframe2 : (audit.runSingle a env w).checks.missingHeaders.result =
        a.checks.missingHeaders.result := hframe
    rw [hframe2, ha]
    exact z5
  · intro hdis
    have hd : a.checks.responsiveIssues.enabled = false := ha ▸ hdis
    have hk : stepKeeps (fun c => c.responsiveIssues.result) (evalPhase a env) :=
      evalPhase_keeps a env _
        (secureStep_keeps a env _ (fun c v => rfl))
        (lcpStep_keeps a env _ (fun c v => rfl))
        (stepKeeps_of_ok_id _ _ (responsiveStep_disabled a env hd))
        (consoleStep_keeps a env _ (fun c v => rfl))
        (requestStep_keeps a env _ (fun c v => rfl))
        (formStep_keeps a env _ (fun c v => rfl))
        (techStep_keeps a env _ (fun c v => rfl))
    have hframe := runSingle_checks_f a env w (fun c => c.responsiveIssues.result) hk
      (fun _ c v => rfl) (fun _ c v => rfl)
    have hframe2 : (audit.runSingle a env w).checks.responsiveIssues.result =
        a.checks.responsiveIssues.result := hframe
    rw [hframe2, ha]
    exact z6
  · intro hdis
    have hd : a.checks.formIssues.enabled = false := ha ▸ hdis
    have hk : stepKeeps (fun c => c.formIssues.result) (evalPhase a env) :=
      evalPhase_keeps a env _
        (secureStep_keeps a env _ (fun c v => rfl))
        (lcpStep_keeps a env _ (fun c v => rfl))
        (responsiveStep_keeps a env _ (fun c v => rfl))
        (consoleStep_keeps a env _ (fun c v => rfl))
        (requestStep_keeps a env _ (fun c v => rfl))
        (stepKeeps_of_ok_id _ _ (formStep_disabled a env hd))
        (techStep_keeps a env _ (fun c v => rfl))
    have hframe := runSingle_checks_f a env w (fun c => c.formIssues.result) hk
      (fun _ c v => rfl) (fun _ c v => rfl)
    have hframe2 : (audit.runSingle a env w).checks.formIssues.result =
        a.checks.formIssues.result := hframe
    rw [hframe2, ha]
    exact z7
  · intro hdis
    have hd : a.checks.techStack.enabled = false := ha ▸ hdis
    have hk : stepKeeps (fun c => c.techStack.result) (evalPhase a env) :=
      evalPhase_keeps a env _
        (secureStep_keeps a env _ (fun c v => rfl))
        (lcpStep_keeps a env _ (fun c v => rfl))
        (responsiveStep_keeps a env _ (fun c v => rfl))
        (consoleStep_keeps a env _ (fun c v => rfl))
        (requestStep_keeps a env _ (fun c v => rfl))
        (formStep_keeps a env _ (fun c v => rfl))
        (stepKeeps_of_ok_id _ _ (techStep_disabled a env hd))
    have hframe := runSingle_checks_f a env w (fun c => c.techStack.result) hk
      (fun _ c v => rfl) (fun _ c v => rfl)
    have hframe2 : (audit.runSingle a env w).checks.techStack.result =
        a.checks.techStack.result := hframe
    rw [hframe2, ha]
    exact z8
  · intro hdis
    have hd : a.checks.screenshot.enabled = false := ha ▸ hdis
    have hk : stepKeeps (fun c => c.screenshot.result) (evalPhase a env) :=
      evalPhase_keeps a env _
        (secureStep_keeps a env _ (fun c v => rfl))
        (lcpStep_keeps a env _ (fun c v => rfl))
        (responsiveStep_keeps a env _ (fun c v => rfl))
        (consoleStep_keeps a env _ (fun c v => rfl))
        (requestStep_keeps a env _ (fun c v => rfl))
        (formStep_keeps a env _ (fun c v => rfl))
        (techStep_keeps a env _ (fun c v => rfl))
    have hframe := runSingle_checks_f a env w (fun c => c.screenshot.result) hk
      (fun _ c v => rfl) (fun hen => absurd hen (by simp [hd]))
    have hframe2 : (audit.runSingle a env w).checks.screenshot.result =
        a.checks.screenshot.result := hframe
    rw [hframe2, ha]
    exact z9

/-- C4: when every step up to navigation succeeds and the main-document
response status is at least 400, the result carries a non-empty
`auditErrs` and every check-specific field beyond the header inspection
holds its zero value. -/
theorem status_400_aborts (imp : Bool) (s : String) (ch : auditChecks)
    (hp : parseAndValidateChecks imp s = .ok ch)
    (a : audit) (ha : a.checks = ch) (env : PageEnv) (w : website) (nr : NavResp)
    (h1 : windowInitPhase env = none) (h2 : injectPhase a env = none)
    (h3 : env.emulateErr = none) (h4 : networkPhase env = none)
    (h5 : runNavPhase (env.nav (navURL a w)) = .ok nr)
    (h6 : 400 ≤ nr.status) :
    (audit.runSingle a env w).auditErrs ≠ [] ∧
    (audit.runSingle a env w).checks.secure.result = false ∧
    (audit.runSingle a env w).checks.lcp.result = 0 ∧
    (audit.runSingle a env w).checks.consoleErrs.result = [] ∧
    (audit.runSingle a env w).checks.requestErrs.result = [] ∧
    (audit.runSingle a env w).checks.responsiveIssues.result = [] ∧
    (audit.runSingle a env w).checks.formIssues.result = [] ∧
    (audit.runSingle a env w).checks.techStack.result = [] ∧
    (audit.runSingle a env w).checks.screenshot.result = false := by
  obtain ⟨z1, z2, z3, z4, z5, z6, z7, z8, z9⟩ := parse_results_zero imp s ch hp
  have hrun : audit.runSingle a env w =
      { website := w.domain, checks := a.checks,
        auditErrs := ["failed to navigate: HTTP Status - " ++ toString nr.status] } := by
    unfold audit.runSingle
    rw [h1, h2, h3, h4, h5]
    simp [h6]
  rw [hrun]
  refine ⟨by simp, ?_, ?_, ?_, ?_, ?_, ?_, ?_, ?_⟩ <;> rw [show
    ({ website := w.domain, checks := a.checks,
       auditErrs := ["failed to navigate: HTTP Status - " ++ toString nr.status] } :
      auditResult).checks = a.checks from rfl, ha]
  · exact z1
  · exact z2
  · exact z3
  · exact z4
  · exact z6
  · exact z7
  · exact z8
  · exact z9

/-- Success-case equations for the evaluation steps, used to compute the
pipeline's result when every in-page evaluation succeeds. -/
lemma secureStep_ok_eq (a : audit) (env : PageEnv) (b : Bool)
    (h : env.secureEval = .ok b) (c : auditChecks) :
    secureStep a env c =
      .ok (if a.checks.secure.enabled then { c with secure.result := b } else c) := by
  unfold secureStep
  cases he : a.checks.secure.enabled <;> simp [he, h]

lemma lcpStep_ok_eq (a : audit) (env : PageEnv) (v : Rat)
    (h : env.lcpEval = .ok v) (c : auditChecks) :
    lcpStep a env c =
      .ok (if a.checks.lcp.enabled then { c with lcp.result := v } else c) := by
  unfold lcpStep
  cases he : a.checks.lcp.enabled <;> simp [he, h]

lemma responsiveStep_ok_eq (a : audit) (env : PageEnv) (v : List String)
    (h : env.responsiveEval a.important = .ok v) (c : auditChecks) :
    responsiveStep a env c =
      .ok (if a.checks.responsiveIssues.enabled then
        { c with responsiveIssues.result := v } else c) := by
  unfold responsiveStep
  cases he : a.checks.responsiveIssues.enabled <;> simp [he, h]

lemma consoleStep_ok_eq (a : audit) (env : PageEnv) (v : List String)
    (h : env.consoleEval = .ok v) (c : auditChecks) :
    consoleStep a env c =
      .ok (if a.checks.consoleErrs.enabled then
        { c with consoleErrs.result := v } else c) := by
  unfold consoleStep
  cases he : a.checks.consoleErrs.enabled <;> simp [he, h]

lemma requestStep_ok_eq (a : audit) (env : PageEnv) (v : List String)
    (h : env.requestEval = .ok v) (c : auditChecks) :
    requestStep a env c =
      .ok (if a.checks.requestErrs.enabled then
        { c with requestErrs.result := v } else c) := by
  unfold requestStep
  cases he : a.checks.requestErrs.enabled <;> simp [he, h]

lemma formStep_ok_eq (a : audit) (env : PageEnv) (v : List String)
    (h : env.formEval a.important = .ok v) (c : auditChecks) :
    formStep a env c =
      .ok (if a.checks.formIssues.enabled then
        { c with formIssues.result := v } else c) := by
  unfold formStep
  cases he : a.checks.formIssues.enabled <;> simp [he, h]

lemma techStep_ok_eq (a : audit) (env : PageEnv) (v : List String)
    (h : env.techEval = .ok v) (c : auditChecks) :
    techStep a env c =
      .ok (if a.checks.techStack.enabled then
        (if !a.important ||
            (decide (0 < c.responsiveIssues.result.length) ||
             decide (0 < c.formIssues.result.length)) then
          { c with techStack.result := v }
        else c)
      else c) := by
  unfold techStep
  cases he : a.checks.techStack.enabled
  · simp [he]
  · simp only [he, if_true]
    split <;> simp [h]

/-- C6: with `techStack` enabled, the tech-stack evaluation is skipped
(result stays empty) in important mode exactly when both the
`responsiveIssues` and `formIssues` results of the same run are empty, is
executed when either has a finding, and is always executed in full
(non-important) mode. -/
theorem techStack_important_shortcircuit (s : String) (ch : auditChecks)
    (a : audit) (env : PageEnv) (w : website) (nr : NavResp)
    (bsec : Bool) (qlcp : Rat) (rs cs qs fs ts : List String)
    (hp : parseAndValidateChecks a.important s = .ok ch)
    (ha : a.checks = ch) (htech : ch.techStack.enabled = true)
    (h1 : windowInitPhase env = none) (h2 : injectPhase a env = none)
    (h3 : env.emulateErr = none) (h4 : networkPhase env = none)
    (h5 : runNavPhase (env.nav (navURL a w)) = .ok nr) (h6 : nr.status < 400)
    (hsec : env.secureEval = .ok bsec) (hlcp : env.lcpEval = .ok qlcp)
    (hresp : env.responsiveEval a.important = .ok rs)
    (hcons : env.consoleEval = .ok cs) (hreq : env.requestEval = .ok qs)
    (hform : env.formEval a.important = .ok fs)
    (htec : env.techEval = .ok ts) (hshot : env.screenshotErr = none) :
    (a.important = true →
      ((audit.runSingle a env w).checks.responsiveIssues.result = [] ∧
       (audit.runSingle a env w).checks.formIssues.result = [] →
       (audit.runSingle a env w).checks.techStack.result = []) ∧
      (¬((audit.runSingle a env w).checks.responsiveIssues.result = [] ∧
         (audit.runSingle a env w).checks.formIssues.result = []) →
       (audit.runSingle a env w).checks.techStack.result = ts)) ∧
    (a.important = false →
      (audit.runSingle a env w).checks.techStack.result = ts) := by
  have hnot400 : ¬ 400 ≤ nr.status := by omega
  constructor
  · intro himp
    have hch : ch = importantAuditChecks := parse_important_eq s ch (himp ▸ hp)
    subst hch
    have hrun : (audit.runSingle a env w).checks =
        { importantAuditChecks with
            secure.result := bsec
            responsiveIssues.result := rs
            formIssues.result := fs
            techStack.result :=
              if (decide (0 < rs.length) || decide (0 < fs.length)) then ts
              else [] } := by
      unfold audit.runSingle
      simp only [h1, h2, h3, h4, h5]
      rw [if_neg hnot400]
      simp only [evalPhase, evalFromLcp, evalFromResponsive, evalFromConsole,
        evalFromRequest, evalFromForm, stepBind,
        secureStep_ok_eq a env bsec hsec, lcpStep_ok_eq a env qlcp hlcp,
        responsiveStep_ok_eq a env rs hresp, consoleStep_ok_eq a env cs hcons,
        requestStep_ok_eq a env qs hreq, formStep_ok_eq a env fs hform,
        techStep_ok_eq a env ts htec]
      simp [ha, himp, headerPhaseChecks, importantAuditChecks, emptyAuditChecks]
      split <;> rename_i hcond <;> simp [hcond]
    rw [hrun]
    constructor
    · rintro ⟨hrs, hfs⟩
      simp only at hrs hfs
      subst hrs
      subst hfs
      simp
    · intro hne
      rcases rs with _ | ⟨x, rs⟩
      · rcases fs with _ | ⟨y, fs⟩
        · exact absurd ⟨rfl, rfl⟩ hne
        · simp
      · simp
  · intro himp
    have hrunt : (audit.runSingle a env w).checks.techStack.result = ts := by
      unfold audit.runSingle
      simp only [h1, h2, h3, h4, h5]
      rw [if_neg hnot400]
      simp only [evalPhase, evalFromLcp, evalFromResponsive, evalFromConsole,
        evalFromRequest, evalFromForm, stepBind,
        secureStep_ok_eq a env bsec hsec, lcpStep_ok_eq a env qlcp hlcp,
        responsiveStep_ok_eq a env rs hresp, consoleStep_ok_eq a env cs hcons,
        requestStep_ok_eq a env qs hreq, formStep_ok_eq a env fs hform,
        techStep_ok_eq a env ts htec]
      have htech2 : a.checks.techStack.enabled = true := by rw [ha]; exact htech
      simp [htech2, himp, hshot, captureScreenshot]
      by_cases hscr : a.checks.screenshot.enabled = true <;> simp [hscr]
    exact hrunt

/-! ## Concrete fixtures for the witnesses -/

/-- A sample site record. -/
def sampleSite : website :=
  { originalURL := "https://example.com", scheme := "https", domain := "example.com" }

/-- A navigation environment where every browser call succeeds and the
main document arrives with status 200. -/
def sampleNavEnv : NavEnv :=
  { navigateErr := none, waitReadyErr := none, idleErr := none,
    settleSleepErr := none, resp := { status := 200, headers := [] } }

/-- A page environment where every browser call succeeds, no responsive or
form issues are found, and the tech-stack scan reports one framework. -/
def samplePageEnv : PageEnv :=
  { blankNavErr := none, blankSleepErr := none, pageEnableErr := none,
    lcpInjectErr := none, errInjectErr := none, emulateErr := none,
    networkEnableErr := none, clearCacheErr := none, clearCookiesErr := none,
    nav := fun _ => sampleNavEnv,
    secureEval := .ok true, lcpEval := .ok 0,
    responsiveEval := fun _ => .ok [], consoleEval := .ok [],
    requestEval := .ok [], formEval := fun _ => .ok [],
    techEval := .ok ["React"], screenshotErr := none }

/-- A batch environment built from `samplePageEnv`. -/
def sampleRunEnv : RunEnv :=
  { browserNavErr := none, browserSleepErr := none, page := fun _ => samplePageEnv }

/-- An audit with every check enabled (empty selection string). -/
def fullAudit : audit :=
  { checksStr := "", checks := allAuditChecks, important := false,
    screenshotDir := "screenshots" }

/-- An audit in important mode. -/
def importantAudit : audit :=
  { checksStr := "", checks := importantAuditChecks, important := true,
    screenshotDir := "screenshots" }

/-- The selection produced by the explicit string "security". -/
def secureOnlyChecks : auditChecks :=
  { emptyAuditChecks with secure.enabled := true }

/-- An audit created from the explicit selection string "security". -/
def secureOnlyAudit : audit :=
  { checksStr := "security", checks := secureOnlyChecks, important := false,
    screenshotDir := "screenshots" }

/-- The selection produced by the explicit string "lcp". -/
def lcpOnlyChecks : auditChecks :=
  { emptyAuditChecks with lcp.enabled := true }

/-- An audit created from the explicit selection string "lcp" (its `secure`
check is disabled). -/
def lcpOnlyAudit : audit :=
  { checksStr := "lcp", checks := lcpOnlyChecks, important := false,
    screenshotDir := "screenshots" }

/-- The selection produced by the explicit string "security, mobile". -/
def namedSelectionChecks : auditChecks :=
  { emptyAuditChecks with
    secure.enabled := true
    responsiveIssues.enabled := true }

/-- A page environment whose main document arrives with status 404. -/
def status404PageEnv : PageEnv :=
  { samplePageEnv with
    nav := fun _ => { sampleNavEnv with resp := { status := 404, headers := [] } } }

/-- A page environment whose idle wait times out
(`context.DeadlineExceeded`). -/
def idleTimeoutPageEnv : PageEnv :=
  { samplePageEnv with
    nav := fun _ => { sampleNavEnv with idleErr := some .deadlineExceeded } }

/-- A page environment whose idle wait fails with an error other than
`context.DeadlineExceeded`. -/
def idleErrorPageEnv : PageEnv :=
  { samplePageEnv with
    nav := fun _ => { sampleNavEnv with idleErr := some (.msg "websocket wait failed") } }

/-! ## Witnesses -/

/-- Witness for C1: a one-site batch returns one result, and it is the
audit of that site. -/
theorem run_preserves_order_witness :
    [audit.runSingle fullAudit (sampleRunEnv.page 0) sampleSite].length =
      [sampleSite].length ∧
    [audit.runSingle fullAudit (sampleRunEnv.page 0) sampleSite].get
        ⟨0, by decide⟩ =
      audit.runSingle fullAudit (sampleRunEnv.page 0)
        ([sampleSite].get ⟨0, by decide⟩) :=
  ⟨(run_preserves_order fullAudit sampleRunEnv [sampleSite]
      [audit.runSingle fullAudit (sampleRunEnv.page 0) sampleSite] rfl).1,
   (run_preserves_order fullAudit sampleRunEnv [sampleSite]
      [audit.runSingle fullAudit (sampleRunEnv.page 0) sampleSite] rfl).2
      0 (by decide) (by decide)⟩

/-- Witness for C2: with only `security` selected, the disabled `lcp` and
`techStack` checks hold zero results after a full run. -/
theorem disabled_checks_zero_witness :
    (audit.runSingle secureOnlyAudit samplePageEnv sampleSite).checks.lcp.result = 0 ∧
    (audit.runSingle secureOnlyAudit samplePageEnv sampleSite).checks.techStack.result = [] :=
  ⟨(disabled_checks_zero false "security" secureOnlyChecks rfl secureOnlyAudit rfl
      samplePageEnv sampleSite).2.1 rfl,
   (disabled_checks_zero false "security" secureOnlyChecks rfl secureOnlyAudit rfl
      samplePageEnv sampleSite).2.2.2.2.2.2.2.1 rfl⟩

/-- Witness for C4: a 404 main document yields a non-empty `auditErrs` and
a zero `techStack` result. -/
theorem status_400_aborts_witness :
    (audit.runSingle fullAudit status404PageEnv sampleSite).auditErrs ≠ [] ∧
    (audit.runSingle fullAudit status404PageEnv sampleSite).checks.techStack.result = [] :=
  ⟨(status_400_aborts false "" allAuditChecks rfl fullAudit rfl status404PageEnv
      sampleSite ⟨404, []⟩ rfl rfl rfl rfl rfl (by decide)).1,
   (status_400_aborts false "" allAuditChecks rfl fullAudit rfl status404PageEnv
      sampleSite ⟨404, []⟩ rfl rfl rfl rfl rfl (by decide)).2.2.2.2.2.2.2.1⟩

/-- Witness for C5: an idle timeout leaves the run identical to an idle
success, while a different idle error aborts the run with that error. -/
theorem idle_timeout_nonfatal_witness :
    (audit.runSingle fullAudit idleTimeoutPageEnv sampleSite =
      audit.runSingle fullAudit
        { idleTimeoutPageEnv with
          nav := fun u => { idleTimeoutPageEnv.nav u with idleErr := none } }
        sampleSite) ∧
    audit.runSingle fullAudit idleErrorPageEnv sampleSite =
      { website := sampleSite.domain, checks := fullAudit.checks,
        auditErrs := ["failed to wait for page to be idle: " ++
          (GoErr.msg "websocket wait failed").message] } :=
  ⟨(idle_timeout_nonfatal fullAudit idleTimeoutPageEnv sampleSite).2.1 rfl,
   (idle_timeout_nonfatal fullAudit idleErrorPageEnv sampleSite).2.2
      (.msg "websocket wait failed") rfl rfl rfl rfl rfl rfl rfl rfl⟩

/-- Witness for C6: in important mode with no responsive or form findings
the tech-stack result stays empty although the check is enabled, while in
full mode it is populated. -/
theorem techStack_important_shortcircuit_witness :
    (audit.runSingle importantAudit samplePageEnv sampleSite).checks.techStack.result = [] ∧
    (audit.runSingle fullAudit samplePageEnv sampleSite).checks.techStack.result = ["React"] :=
  ⟨((techStack_important_shortcircuit "" importantAuditChecks importantAudit samplePageEnv
      sampleSite ⟨200, []⟩ true 0 [] [] [] [] ["React"] rfl rfl rfl rfl rfl rfl rfl rfl
      (by decide) rfl rfl rfl rfl rfl rfl rfl rfl).1 rfl).1 ⟨rfl, rfl⟩,
   (techStack_important_shortcircuit "" allAuditChecks fullAudit samplePageEnv
      sampleSite ⟨200, []⟩ true 0 [] [] [] [] ["React"] rfl rfl rfl rfl rfl rfl rfl rfl
      (by decide) rfl rfl rfl rfl rfl rfl rfl rfl).2 rfl⟩

/-- Witness for C8: the three selection modes at concrete configurations. -/
theorem parseChecks_selection_spec_witness :
    (importantAuditChecks.secure.enabled = true ∧
     importantAuditChecks.responsiveIssues.enabled = true ∧
     importantAuditChecks.formIssues.enabled = true ∧
     importantAuditChecks.techStack.enabled = true ∧
     importantAuditChecks.lcp.enabled = false ∧
     importantAuditChecks.consoleErrs.enabled = false ∧
     importantAuditChecks.requestErrs.enabled = false ∧
     importantAuditChecks.missingHeaders.enabled = false ∧
     importantAuditChecks.screenshot.enabled = false) ∧
    (allAuditChecks.secure.enabled = true ∧ allAuditChecks.lcp.enabled = true ∧
     allAuditChecks.consoleErrs.enabled = true ∧
     allAuditChecks.requestErrs.enabled = true ∧
     allAuditChecks.missingHeaders.enabled = true ∧
     allAuditChecks.responsiveIssues.enabled = true ∧
     allAuditChecks.formIssues.enabled = true ∧
     allAuditChecks.techStack.enabled = true ∧
     allAuditChecks.screenshot.enabled = true) ∧
    ((namedSelectionChecks.secure.enabled = true ↔
        "security" ∈ (goSplitComma "security, mobile").map goTrimSpace) ∧
     (namedSelectionChecks.lcp.enabled = true ↔
        "lcp" ∈ (goSplitComma "security, mobile").map goTrimSpace) ∧
     (namedSelectionChecks.consoleErrs.enabled = true ↔
        "console" ∈ (goSplitComma "security, mobile").map goTrimSpace) ∧
     (namedSelectionChecks.requestErrs.enabled = true ↔
        "request" ∈ (goSplitComma "security, mobile").map goTrimSpace) ∧
     (namedSelectionChecks.missingHeaders.enabled = true ↔
        "headers" ∈ (goSplitComma "security, mobile").map goTrimSpace) ∧
     (namedSelectionChecks.responsiveIssues.enabled = true ↔
        "mobile" ∈ (goSplitComma "security, mobile").map goTrimSpace) ∧
     (namedSelectionChecks.formIssues.enabled = true ↔
        "form" ∈ (goSplitComma "security, mobile").map goTrimSpace) ∧
     (namedSelectionChecks.techStack.enabled = true ↔
        "tech" ∈ (goSplitComma "security, mobile").map goTrimSpace) ∧
     (namedSelectionChecks.screenshot.enabled = true ↔
        "screenshot" ∈ (goSplitComma "security, mobile").map goTrimSpace)) :=
  ⟨parseChecks_selection_spec.1 "" importantAuditChecks rfl,
   parseChecks_selection_spec.2.1 allAuditChecks rfl,
   parseChecks_selection_spec.2.2 "security, mobile" namedSelectionChecks rfl rfl⟩

/-- Witness for C9: with `secure` enabled only the forced-http URL matters;
with `secure` disabled only the original-scheme URL matters. -/
theorem navScheme_forced_witness :
    (audit.runSingle fullAudit samplePageEnv sampleSite =
      audit.runSingle fullAudit
        { samplePageEnv with
          nav := fun _ => samplePageEnv.nav ("http://" ++ sampleSite.domain ++ "/") }
        sampleSite) ∧
    (audit.runSingle lcpOnlyAudit samplePageEnv sampleSite =
      audit.runSingle lcpOnlyAudit
        { samplePageEnv with
          nav := fun _ =>
            samplePageEnv.nav (sampleSite.scheme ++ "://" ++ sampleSite.domain ++ "/") }
        sampleSite) :=
  ⟨(navScheme_forced fullAudit samplePageEnv sampleSite).1 rfl,
   (navScheme_forced lcpOnlyAudit samplePageEnv sampleSite).2 rfl⟩

end SiteAuditor
